import Mathlib

/-!
Shallow embedding of the real-time audio pipeline of the AtosCare voice app
(`App.tsx`): the capture pipeline, the playback scheduler and the session
lifecycle controller built around the external live-speech session.

Times and durations are modelled as rationals (the source uses the output
audio context's clock, a real-valued monotonic clock).  The external decode
step (`decodeAudioData` in `utils/audioUtils`, not part of the analysed
sources) is abstracted by its outcome `DecodeResult`: either a playable
buffer whose only relevant attribute is its duration, or a decode failure.
-/

namespace AtosCare

/-- `ConnectionState` from `types.ts`:
`'disconnected' | 'connecting' | 'connected' | 'error'`. -/
inductive ConnectionState
  | disconnected
  | connecting
  | connected
  | error
deriving DecidableEq

/-- A captured audio frame: `e.inputBuffer.getChannelData(0)`,
normalized float samples. -/
abbrev AudioFrame : Type := List ℚ

/-- Modelled from the spec: `createBlob` (PCM Encoder, §4.1) lives in
`utils/audioUtils` which is not among the analysed sources.  Per the spec,
each sample is clamped to `[-1,1]` and scaled to the 16-bit signed range
(32768 for the negative half, 32767 for the positive half). -/
def quantizeSample (x : ℚ) : ℤ :=
  let c := max (-1 : ℚ) (min 1 x)
  if c < 0 then ⌊c * 32768⌋ else ⌊c * 32767⌋

/-- The transport payload shape `{ mimeType, data }` of an encoded chunk. -/
structure EncodedChunk where
  mimeType : String
  data : List ℤ
deriving DecidableEq

/-- Modelled from the spec: the PCM Encoder output for one captured frame
(`createBlob(inputData)` in the capture tick). -/
def createBlob (frame : AudioFrame) : EncodedChunk :=
  { mimeType := "audio/pcm;rate=16000", data := frame.map quantizeSample }

/-- Outcome of `decodeAudioData(decode(base64Audio), outputCtx, 24000, 1)`
for one inbound payload; `ok d` is a decoded buffer of duration `d` seconds,
`err` a decode failure (the `catch` branch of `onmessage`). -/
inductive DecodeResult
  | ok (duration : ℚ)
  | err
deriving DecidableEq

/-- One inbound server message, as read by `onmessage`: an optional inline
audio payload (already paired with its decode outcome) and the
`serverContent.interrupted` flag. -/
structure ServerMessage where
  audio : Option DecodeResult
  interrupted : Bool
deriving DecidableEq

/-- One `AudioBufferSourceNode` held in `audioSourcesRef`.  `id` identifies
the node, `startTime`/`duration` record its schedule, and `finished` is true
once the node has finished playing (calling `stop()` on such a node is
modelled as raising, which the source's `try/catch` swallows). -/
structure PlaybackSource where
  id : ℕ
  startTime : ℚ
  duration : ℚ
  finished : Bool
deriving DecidableEq

/-- The mutable state of the `App` component: React state
(`connectionState`, `errorMsg`, `isMicOn`) and the refs
(`streamRef`/`processorRef`, `nextStartTimeRef`, `audioSourcesRef`,
`sessionPromiseRef`).  `closureMicOn` models the value of `isMicOn`
captured by the closures created inside `connectToGemini` (the
`onaudioprocess` handler reads this captured copy, not the live React
state).  `nextId`, `startedIds` and `schedLog` are ghost instrumentation:
`startedIds`/`schedLog` record each `source.start(t)` call in program
order, without influencing any other field. -/
structure AppState where
  connectionState : ConnectionState
  errorMsg : Option String
  isMicOn : Bool
  closureMicOn : Option Bool
  streamActive : Bool
  processorActive : Bool
  nextStartTime : ℚ
  audioSources : List PlaybackSource
  sessionOpen : Bool
  nextId : ℕ
  diagnostics : ℕ
  startedIds : List ℕ
  schedLog : List (ℚ × ℚ)
deriving DecidableEq

/-- The initial component state: `useState('disconnected')`,
`useState(true)` for the mic, refs `0` / empty / null. -/
def initialState : AppState :=
  { connectionState := ConnectionState.disconnected
    errorMsg := none
    isMicOn := true
    closureMicOn := none
    streamActive := false
    processorActive := false
    nextStartTime := 0
    audioSources := []
    sessionOpen := false
    nextId := 0
    diagnostics := 0
    startedIds := []
    schedLog := [] }

/-- `stopAudioInput`: disconnects and nulls the script processor and the
media-stream source, stops the microphone tracks. -/
def stopAudioInput (s : AppState) : AppState :=
  { s with processorActive := false, streamActive := false }

/-- `source.stop()` on one playback node.  A node that has already finished
may raise (`InvalidStateError`); the raw call is modelled in `Except`. -/
def rawStop (src : PlaybackSource) : Except String Unit :=
  if src.finished then Except.error "InvalidStateError" else Except.ok ()

/-- The `forEach` body of `stopAudioOutput`:
`try { source.stop(); } catch (e) { /* ignore */ }` over every source.
Each raw stop failure is caught and ignored. -/
def stopAllSources : List PlaybackSource → Except String Unit
  | [] => Except.ok ()
  | src :: rest =>
    match rawStop src with
    | Except.ok _ => stopAllSources rest
    | Except.error _ => stopAllSources rest

/-- `stopAudioOutput` with its exception behaviour made explicit: stop every
currently playing source (failures swallowed by the catch), clear the set,
reset `nextStartTimeRef` to 0. -/
def stopAudioOutputE (s : AppState) : Except String AppState :=
  match stopAllSources s.audioSources with
  | Except.ok _ => Except.ok { s with audioSources := [], nextStartTime := 0 }
  | Except.error e => Except.error e

/-- `stopAudioOutput` as a total state transformer (the source function
never throws: every per-node `stop()` is wrapped in `try/catch`). -/
def stopAudioOutput (s : AppState) : AppState :=
  { s with audioSources := [], nextStartTime := 0 }

/-- `session.close()` inside `disconnect`; `closeFails` says whether the
underlying SDK call throws (the source catches and `console.warn`s it). -/
def sessionClose (closeFails : Bool) : Except String Unit :=
  if closeFails then Except.error "close failed" else Except.ok ()

/-- `disconnect`: set state `'disconnected'`, stop input, stop output, and
if a session promise exists, close the session (errors caught and logged)
and null the ref. -/
def disconnectE (closeFails : Bool) (s : AppState) : Except String AppState :=
  let s1 := { s with connectionState := ConnectionState.disconnected }
  let s2 := stopAudioInput s1
  match stopAudioOutputE s2 with
  | Except.error e => Except.error e
  | Except.ok s3 =>
    if s3.sessionOpen then
      match sessionClose closeFails with
      | Except.ok _ => Except.ok { s3 with sessionOpen := false }
      | Except.error _ => Except.ok { s3 with sessionOpen := false }
    else Except.ok s3

/-- The successful prefix of `connectToGemini` up to the `ai.live.connect`
call: clear `errorMsg`, set state `'connecting'`, acquire the microphone
stream, store the session promise.  The closures passed as callbacks
capture the current render's `isMicOn` value. -/
def connectStart (s : AppState) : AppState :=
  { s with errorMsg := none
           connectionState := ConnectionState.connecting
           streamActive := true
           sessionOpen := true
           closureMicOn := some s.isMicOn }

/-- The `onopen` callback: set state `'connected'`, create the
media-stream source and the 4096-sample script processor, install
`onaudioprocess` and connect the nodes.  (It does not touch
`nextStartTimeRef`.) -/
def onopen (s : AppState) : AppState :=
  { s with connectionState := ConnectionState.connected
           processorActive := true }

/-- One capture tick (`scriptProcessor.onaudioprocess`): fires while the
processor is connected; `if (!isMicOn) return;` reads the `isMicOn` value
captured by the `connectToGemini` closure, then encodes the frame and hands
the chunk to `session.sendRealtimeInput`.  Returns the chunk sent, if any. -/
def captureTick (s : AppState) (frame : AudioFrame) : Option EncodedChunk :=
  if s.processorActive then
    match s.closureMicOn with
    | some captured => if captured then some (createBlob frame) else none
    | none => none
  else none

/-- `toggleMic`: `setIsMicOn(prev => !prev)` — flips the React state only;
the already-installed `onaudioprocess` closure is not reattached. -/
def toggleMic (s : AppState) : AppState :=
  { s with isMicOn := !s.isMicOn }

/-- Line 152 of the handler:
`nextStartTimeRef.current = Math.max(nextStartTimeRef.current, outputCtx.currentTime)`. -/
def bumpCursor (now : ℚ) (s : AppState) : AppState :=
  { s with nextStartTime := max s.nextStartTime now }

/-- The `AudioBufferSourceNode` created for a decoded buffer of duration
`d`, scheduled for the current cursor value. -/
def mkSource (d : ℚ) (s : AppState) : PlaybackSource :=
  { id := s.nextId, startTime := s.nextStartTime, duration := d, finished := false }

/-- `source.start(nextStartTimeRef.current)` — ghost-records the start call
(id and schedule) in program order. -/
def startSource (src : PlaybackSource) (s : AppState) : AppState :=
  { s with startedIds := s.startedIds ++ [src.id]
           schedLog := s.schedLog ++ [(src.startTime, src.duration)] }

/-- `nextStartTimeRef.current += audioBuffer.duration`. -/
def advanceCursor (d : ℚ) (s : AppState) : AppState :=
  { s with nextStartTime := s.nextStartTime + d }

/-- `audioSourcesRef.current.add(source)` (with ghost id allocation). -/
def addSource (src : PlaybackSource) (s : AppState) : AppState :=
  { s with audioSources := s.audioSources ++ [src], nextId := s.nextId + 1 }

/-- The audio branch of `onmessage` (its `try { ... } catch` block, lines
150–175): bump the cursor to `max(nextStartTime, currentTime)`, then either
schedule the decoded buffer — `source.start(cursor)`, advance the cursor by
its duration, add it to the set — or, when decoding fails, log a diagnostic
(`console.error`) and drop the chunk. -/
def handleAudio (now : ℚ) (r : DecodeResult) (s : AppState) : AppState :=
  let s1 := bumpCursor now s
  match r with
  | DecodeResult.ok d =>
      let src := mkSource d s1
      addSource src (advanceCursor d (startSource src s1))
  | DecodeResult.err => { s1 with diagnostics := s1.diagnostics + 1 }

/-- The `onmessage` callback: handle the inline audio payload if present,
then handle the `interrupted` flag by calling `stopAudioOutput()`. -/
def onmessage (now : ℚ) (m : ServerMessage) (s : AppState) : AppState :=
  let s1 :=
    match m.audio with
    | some r => handleAudio now r s
    | none => s
  if m.interrupted then stopAudioOutput s1 else s1

/-- The `onclose` callback: `console.log` and
`setConnectionState('disconnected')` — nothing else. -/
def onclose (s : AppState) : AppState :=
  { s with connectionState := ConnectionState.disconnected }

/-- The `onerror` callback: `console.error("Session Error", e)` (the detail
`e` is only logged), `setErrorMsg("Connection error. Please try again.")`,
then `disconnect()`. -/
def onerrorE (e : String) (closeFails : Bool) (s : AppState) :
    Except String AppState :=
  let _detail := e
  disconnectE closeFails
    { s with errorMsg := some "Connection error. Please try again." }

/-- A run of successive audio enqueues: each element `(now, d)` is one
inbound audio message processed at output-clock time `now`, decoding to a
buffer of duration `d`. -/
def runEnqueues : AppState → List (ℚ × ℚ) → AppState
  | s, [] => s
  | s, (now, d) :: rest =>
      runEnqueues
        (onmessage now { audio := some (DecodeResult.ok d), interrupted := false } s)
        rest

/-- Adjacent non-overlap of a schedule log: each recorded start time is at
least the previous start time plus the previous duration
(`start(i+1) >= start(i) + d(i)`). -/
def chained : List (ℚ × ℚ) → Prop
  | p :: q :: rest => p.1 + p.2 ≤ q.1 ∧ chained (q :: rest)
  | _ => True

instance chainedDecidable : (l : List (ℚ × ℚ)) → Decidable (chained l)
  | [] => Decidable.isTrue trivial
  | [_] => Decidable.isTrue trivial
  | p :: q :: rest =>
      have : Decidable (chained (q :: rest)) := chainedDecidable (q :: rest)
      inferInstanceAs (Decidable (p.1 + p.2 ≤ q.1 ∧ chained (q :: rest)))

/-! ### Helper lemmas -/

lemma stopAllSources_ok (l : List PlaybackSource) :
    stopAllSources l = Except.ok () := by
  induction l with
  | nil => rfl
  | cons src rest ih =>
    unfold stopAllSources rawStop
    by_cases h : src.finished = true <;> simp [h, ih]

lemma stopAudioOutputE_ok (s : AppState) :
    stopAudioOutputE s =
      Except.ok { s with audioSources := [], nextStartTime := 0 } := by
  unfold stopAudioOutputE
  rw [stopAllSources_ok]

/-- The normal form of `disconnect`: it always succeeds, and the resulting
state is the full local teardown with `connectionState = disconnected`. -/
lemma disconnectE_eq (b : Bool) (s : AppState) :
    disconnectE b s = Except.ok
      { s with connectionState := ConnectionState.disconnected
               streamActive := false
               processorActive := false
               audioSources := []
               nextStartTime := 0
               sessionOpen := false } := by
  unfold disconnectE stopAudioInput
  simp only [stopAudioOutputE_ok]
  by_cases h : s.sessionOpen = true
  · simp only [h, if_true]
    cases b <;> rfl
  · simp only [Bool.not_eq_true] at h
    simp [h]

lemma chained_snoc (log : List (ℚ × ℚ)) (st d : ℚ)
    (h1 : chained log)
    (h2 : ∀ p, log.getLast? = some p → p.1 + p.2 ≤ st) :
    chained (log ++ [(st, d)]) := by
  induction log with
  | nil => trivial
  | cons p rest ih =>
    cases rest with
    | nil =>
      exact ⟨h2 p rfl, trivial⟩
    | cons q rest' =>
      obtain ⟨hpq, htail⟩ := h1
      refine ⟨hpq, ?_⟩
      exact ih htail (fun r hr => h2 r (by rwa [List.getLast?_cons_cons]))

lemma onmessage_ok_schedLog (now d : ℚ) (s : AppState) :
    (onmessage now { audio := some (DecodeResult.ok d), interrupted := false } s).schedLog
      = s.schedLog ++ [(max s.nextStartTime now, d)] := rfl

lemma onmessage_ok_nextStartTime (now d : ℚ) (s : AppState) :
    (onmessage now { audio := some (DecodeResult.ok d), interrupted := false } s).nextStartTime
      = max s.nextStartTime now + d := rfl

/-- Invariant of an enqueue run: the schedule log stays chained and the
cursor stays at or beyond the end of the last scheduled unit. -/
lemma runEnqueues_inv (pairs : List (ℚ × ℚ)) :
    ∀ s : AppState, chained s.schedLog →
      (∀ p, s.schedLog.getLast? = some p → p.1 + p.2 ≤ s.nextStartTime) →
      chained (runEnqueues s pairs).schedLog ∧
        (∀ p, (runEnqueues s pairs).schedLog.getLast? = some p →
          p.1 + p.2 ≤ (runEnqueues s pairs).nextStartTime) := by
  induction pairs with
  | nil => exact fun s h1 h2 => ⟨h1, h2⟩
  | cons pr rest ih =>
    intro s h1 h2
    obtain ⟨now, d⟩ := pr
    show chained (runEnqueues (onmessage now _ s) rest).schedLog ∧ _
    apply ih
    · rw [onmessage_ok_schedLog]
      apply chained_snoc _ _ _ h1
      intro p hp
      calc p.1 + p.2 ≤ s.nextStartTime := h2 p hp
        _ ≤ max s.nextStartTime now := le_max_left _ _
    · intro p hp
      rw [onmessage_ok_schedLog, List.getLast?_concat] at hp
      rw [onmessage_ok_nextStartTime]
      cases hp
      exact le_refl _

/-! ### Claims -/

/-- C1: For every sequence of enqueue operations on the Playback Scheduler
with unit durations `d1..dn`, issued at arbitrary output-clock times, each
unit's start time is computed as `max(nextStartTime, outputClockNow())`
(this is the definition of `bumpCursor`/`mkSource`, embedding line 152 of
the handler), and the resulting scheduled start times satisfy
`start(i+1) >= start(i) + d(i)` for all `i` — units never overlap. -/
theorem playback_no_overlap (s : AppState) (pairs : List (ℚ × ℚ))
    (h : s.schedLog = []) :
    chained (runEnqueues s pairs).schedLog := by
  refine (runEnqueues_inv pairs s ?_ ?_).1
  · rw [h]; trivial
  · intro p hp; rw [h] at hp; cases hp

/-- Witness for C1: a concrete run of three enqueues at output-clock times
0, 0, 5 with durations 1, 2, 3 from the initial state. -/
theorem playback_no_overlap_witness :
    initialState.schedLog = [] ∧
      chained ((runEnqueues initialState
        ([(0, 1), (0, 2), (5, 3)] : List (ℚ × ℚ))).schedLog) :=
  ⟨rfl, playback_no_overlap initialState ([(0, 1), (0, 2), (5, 3)] : List (ℚ × ℚ)) rfl⟩

/-- C2 (code behaviour at the failing input): the `onaudioprocess` handler
reads the `isMicOn` value captured by the `connectToGemini` closure, not
the live React state.  Connecting with the mic on and then pressing the
mute toggle leaves `isMicOn = false`, yet the very next capture tick still
produces and sends an `EncodedChunk`; conversely, connecting while muted
and toggling the mic back on never resumes transmission. -/
theorem mute_toggle_ineffective :
    ((toggleMic (onopen (connectStart initialState))).isMicOn = false ∧
      captureTick (toggleMic (onopen (connectStart initialState))) [] =
        some (createBlob [])) ∧
    ((toggleMic (onopen (connectStart (toggleMic initialState)))).isMicOn = true ∧
      captureTick (toggleMic (onopen (connectStart (toggleMic initialState)))) [] =
        none) := by
  refine ⟨⟨rfl, rfl⟩, ⟨rfl, rfl⟩⟩

/-- C3 counterexample: from a concrete connected state, a remote error does
not leave the `ConnectionState` in `error` — `onerror` calls `disconnect()`,
which sets it to `disconnected`. -/
theorem remote_error_state_counterexample :
    (onmessage 0 { audio := some (DecodeResult.ok 2), interrupted := false }
        (onopen (connectStart initialState))).connectionState =
      ConnectionState.connected ∧
    Except.map (fun t => t.connectionState)
        (onerrorE "internal failure detail" false
          (onmessage 0 { audio := some (DecodeResult.ok 2), interrupted := false }
            (onopen (connectStart initialState)))) =
      Except.ok ConnectionState.disconnected ∧
    ConnectionState.disconnected ≠ ConnectionState.error := by
  refine ⟨rfl, rfl, by decide⟩

/-- C3 amended: whenever the remote collaborator signals an error while the
`ConnectionState` is `connecting` or `connected`, the controller surfaces
the generic user-facing message `"Connection error. Please try again."`
(independent of the internal error detail, which is only logged) and
performs the same teardown as `disconnect()`; the resulting
`ConnectionState` is `disconnected`, not `error`. -/
theorem remote_error_teardown (e e2 : String) (b : Bool) (s : AppState)
    (_h : s.connectionState = ConnectionState.connecting ∨
          s.connectionState = ConnectionState.connected) :
    onerrorE e b s = Except.ok
      { s with connectionState := ConnectionState.disconnected
               errorMsg := some "Connection error. Please try again."
               streamActive := false
               processorActive := false
               audioSources := []
               nextStartTime := 0
               sessionOpen := false } ∧
    onerrorE e2 b s = onerrorE e b s ∧
    disconnectE b s = Except.ok
      { s with connectionState := ConnectionState.disconnected
               streamActive := false
               processorActive := false
               audioSources := []
               nextStartTime := 0
               sessionOpen := false } := by
  refine ⟨?_, rfl, disconnectE_eq b s⟩
  unfold onerrorE
  rw [disconnectE_eq]

/-- Witness for C3 amended: a concrete connected state, two distinct error
details. -/
theorem remote_error_teardown_witness :
    ((onopen (connectStart initialState)).connectionState =
        ConnectionState.connecting ∨
      (onopen (connectStart initialState)).connectionState =
        ConnectionState.connected) ∧
    (onerrorE "detail A" false (onopen (connectStart initialState)) = Except.ok
      { onopen (connectStart initialState) with
          connectionState := ConnectionState.disconnected
          errorMsg := some "Connection error. Please try again."
          streamActive := false
          processorActive := false
          audioSources := []
          nextStartTime := 0
          sessionOpen := false } ∧
    onerrorE "detail B" false (onopen (connectStart initialState)) =
      onerrorE "detail A" false (onopen (connectStart initialState)) ∧
    disconnectE false (onopen (connectStart initialState)) = Except.ok
      { onopen (connectStart initialState) with
          connectionState := ConnectionState.disconnected
          streamActive := false
          processorActive := false
          audioSources := []
          nextStartTime := 0
          sessionOpen := false }) :=
  ⟨Or.inr rfl,
    remote_error_teardown "detail A" "detail B" false
      (onopen (connectStart initialState)) (Or.inr rfl)⟩

/-- C4 counterexample: a reachable `connecting` state whose playback cursor
is non-zero (a previous session scheduled a 2-second unit and the remote
side closed, which never resets the cursor); `onopen` sets the state to
`connected` and starts the capture pipeline but leaves the cursor at 2,
not 0. -/
theorem onopen_cursor_counterexample :
    (connectStart (onclose (onmessage 0
        { audio := some (DecodeResult.ok 2), interrupted := false }
        (onopen (connectStart initialState))))).connectionState =
      ConnectionState.connecting ∧
    (onopen (connectStart (onclose (onmessage 0
        { audio := some (DecodeResult.ok 2), interrupted := false }
        (onopen (connectStart initialState)))))).connectionState =
      ConnectionState.connected ∧
    (onopen (connectStart (onclose (onmessage 0
        { audio := some (DecodeResult.ok 2), interrupted := false }
        (onopen (connectStart initialState)))))).nextStartTime = 2 ∧
    ¬ (onopen (connectStart (onclose (onmessage 0
        { audio := some (DecodeResult.ok 2), interrupted := false }
        (onopen (connectStart initialState)))))).nextStartTime = 0 := by
  refine ⟨rfl, rfl, by norm_num [onopen, connectStart, onclose,
    onmessage, handleAudio, bumpCursor, startSource, advanceCursor,
    addSource, mkSource, initialState], ?_⟩
  norm_num [onopen, connectStart, onclose, onmessage, handleAudio,
    bumpCursor, startSource, advanceCursor, addSource, mkSource, initialState]

/-- C4 amended: on the remote session-open signal the controller sets the
state to `connected` and starts the Capture Pipeline (attaches the script
processor); it does not reset the Playback Scheduler's cursor — `onopen`
leaves `nextStartTime` unchanged (the cursor is reset to 0 only by
`stopAudioOutput`, i.e. on flush/teardown). -/
theorem onopen_effects (s : AppState) :
    onopen s = { s with connectionState := ConnectionState.connected
                        processorActive := true } ∧
    (onopen s).nextStartTime = s.nextStartTime :=
  ⟨rfl, rfl⟩

/-- C5 counterexample: from a concrete connected state with a live capture
pipeline, one scheduled unit and an open session, the remote close signal
leaves the stream and processor active, the session handle set, the
ActivePlaybackSet non-empty and the cursor at 2 — it only sets the
`ConnectionState` to `disconnected`. -/
theorem onclose_counterexample :
    (onclose (onmessage 0 { audio := some (DecodeResult.ok 2), interrupted := false }
        (onopen (connectStart initialState)))).connectionState =
      ConnectionState.disconnected ∧
    (onclose (onmessage 0 { audio := some (DecodeResult.ok 2), interrupted := false }
        (onopen (connectStart initialState)))).streamActive = true ∧
    (onclose (onmessage 0 { audio := some (DecodeResult.ok 2), interrupted := false }
        (onopen (connectStart initialState)))).processorActive = true ∧
    (onclose (onmessage 0 { audio := some (DecodeResult.ok 2), interrupted := false }
        (onopen (connectStart initialState)))).sessionOpen = true ∧
    (onclose (onmessage 0 { audio := some (DecodeResult.ok 2), interrupted := false }
        (onopen (connectStart initialState)))).audioSources ≠ [] ∧
    (onclose (onmessage 0 { audio := some (DecodeResult.ok 2), interrupted := false }
        (onopen (connectStart initialState)))).nextStartTime = 2 := by
  refine ⟨rfl, rfl, rfl, rfl, by decide, by norm_num [onclose, onmessage,
    handleAudio, bumpCursor, startSource, advanceCursor, addSource,
    mkSource, onopen, connectStart, initialState]⟩

/-- C5 amended: on the remote close signal the controller only transitions
the `ConnectionState` to `disconnected`; it does not stop capture (stream
and processor stay attached), does not flush playback (set and cursor are
untouched) and does not invalidate the `SessionHandle` — those effects only
happen through `disconnect()`. -/
theorem onclose_effects (s : AppState) :
    (onclose s).connectionState = ConnectionState.disconnected ∧
    (onclose s).streamActive = s.streamActive ∧
    (onclose s).processorActive = s.processorActive ∧
    (onclose s).audioSources = s.audioSources ∧
    (onclose s).nextStartTime = s.nextStartTime ∧
    (onclose s).sessionOpen = s.sessionOpen :=
  ⟨rfl, rfl, rfl, rfl, rfl, rfl⟩

/-- C6: after any call to `flush()` (`stopAudioOutput`), regardless of how
many units were pending or playing — including units whose playback has
already finished, on which the raw `stop()` raises — no error propagates
(the per-unit `try/catch` swallows it, so the outcome of each stop never
changes the result), the ActivePlaybackSet is empty and `nextStartTime`
equals 0. -/
theorem flush_clears_state (s : AppState) :
    stopAudioOutputE s =
      Except.ok { s with audioSources := [], nextStartTime := 0 } ∧
    ∀ (src : PlaybackSource) (l : List PlaybackSource),
      stopAllSources (src :: l) = stopAllSources l := by
  refine ⟨stopAudioOutputE_ok s, ?_⟩
  intro src l
  rw [stopAllSources_ok, stopAllSources_ok]

/-- C7: for every inbound audio payload whose decode fails, the offending
chunk is dropped (the ActivePlaybackSet is unchanged), a diagnostic is
recorded (`console.error`), the `ConnectionState`, the session handle and
the user-facing error message all remain unchanged, and playback of
subsequent chunks continues: a following good chunk is scheduled and
tracked as usual. -/
theorem decode_error_recovery (now now2 d : ℚ) (s : AppState) :
    (onmessage now { audio := some DecodeResult.err, interrupted := false } s).connectionState
        = s.connectionState ∧
    (onmessage now { audio := some DecodeResult.err, interrupted := false } s).sessionOpen
        = s.sessionOpen ∧
    (onmessage now { audio := some DecodeResult.err, interrupted := false } s).errorMsg
        = s.errorMsg ∧
    (onmessage now { audio := some DecodeResult.err, interrupted := false } s).audioSources
        = s.audioSources ∧
    (onmessage now { audio := some DecodeResult.err, interrupted := false } s).diagnostics
        = s.diagnostics + 1 ∧
    (onmessage now2 { audio := some (DecodeResult.ok d), interrupted := false }
        (onmessage now { audio := some DecodeResult.err, interrupted := false } s)).audioSources
      = s.audioSources ++
        [mkSource d (bumpCursor now2
          (onmessage now { audio := some DecodeResult.err, interrupted := false } s))] :=
  ⟨rfl, rfl, rfl, rfl, rfl, rfl⟩

/-- C8: `disconnect()` always succeeds (a failing `session.close()` is
caught and only logged) and leaves `ConnectionState = disconnected`; it is
safe in every state, including one that was never connected, and calling it
a second time produces no error and returns the very same state. -/
theorem disconnect_idempotent (b b2 : Bool) (s : AppState) :
    ∃ s2, disconnectE b s = Except.ok s2 ∧
      s2.connectionState = ConnectionState.disconnected ∧
      disconnectE b2 s2 = Except.ok s2 := by
  refine ⟨_, disconnectE_eq b s, rfl, ?_⟩
  rw [disconnectE_eq]

/-- C9 counterexample: at the intermediate execution point of the enqueue
— immediately after `source.start(...)` (line 169) and before
`audioSourcesRef.current.add(source)` (line 171) — the unit has been
started (its id is in the ghost start log) but is not yet a member of the
ActivePlaybackSet; the handler as executed by the source equals
`addSource` applied after `advanceCursor` after `startSource`, so insertion
happens after the start, not before it. -/
theorem insert_before_start_counterexample :
    handleAudio 0 (DecodeResult.ok 1) (onopen (connectStart initialState)) =
      addSource (mkSource 1 (bumpCursor 0 (onopen (connectStart initialState))))
        (advanceCursor 1
          (startSource (mkSource 1 (bumpCursor 0 (onopen (connectStart initialState))))
            (bumpCursor 0 (onopen (connectStart initialState))))) ∧
    (startSource (mkSource 1 (bumpCursor 0 (onopen (connectStart initialState))))
        (bumpCursor 0 (onopen (connectStart initialState)))).startedIds = [0] ∧
    (mkSource 1 (bumpCursor 0 (onopen (connectStart initialState)))).id = 0 ∧
    (startSource (mkSource 1 (bumpCursor 0 (onopen (connectStart initialState))))
        (bumpCursor 0 (onopen (connectStart initialState)))).audioSources = [] := by
  refine ⟨rfl, rfl, rfl, rfl⟩

/-- C9 amended: in every enqueue operation the `PlaybackUnit` is scheduled
to start first and inserted into the ActivePlaybackSet immediately
afterwards, within the same handler step: `handleAudio` is exactly
`addSource` after `advanceCursor` after `startSource`, at the intermediate
point after the start the unit is already recorded as started, and once the
enqueue completes the unit is a member of the set. -/
theorem enqueue_insert_after_start (now d : ℚ) (s : AppState) :
    handleAudio now (DecodeResult.ok d) s =
      addSource (mkSource d (bumpCursor now s))
        (advanceCursor d (startSource (mkSource d (bumpCursor now s)) (bumpCursor now s))) ∧
    (mkSource d (bumpCursor now s)).id ∈
      (startSource (mkSource d (bumpCursor now s)) (bumpCursor now s)).startedIds ∧
    mkSource d (bumpCursor now s) ∈
      (handleAudio now (DecodeResult.ok d) s).audioSources := by
  refine ⟨rfl, ?_, ?_⟩
  · show (mkSource d (bumpCursor now s)).id ∈ s.startedIds ++ [(mkSource d (bumpCursor now s)).id]
    simp
  · show mkSource d (bumpCursor now s) ∈ s.audioSources ++ [mkSource d (bumpCursor now s)]
    simp

/-- C10: for a single inbound message that carries both an audio payload
and the `interrupted` flag, the handler first decodes and schedules the
audio unit — the ghost logs record its `start()` at
`max(nextStartTime, now)` — and then performs the flush, so after the
handler completes the ActivePlaybackSet is empty and `nextStartTime`
equals 0: the audio carried by an interrupting message is never left
playing. -/
theorem interrupt_with_audio_flush (now d : ℚ) (s : AppState) :
    (onmessage now { audio := some (DecodeResult.ok d), interrupted := true } s).audioSources
        = [] ∧
    (onmessage now { audio := some (DecodeResult.ok d), interrupted := true } s).nextStartTime
        = 0 ∧
    (onmessage now { audio := some (DecodeResult.ok d), interrupted := true } s).startedIds
        = s.startedIds ++ [s.nextId] ∧
    (onmessage now { audio := some (DecodeResult.ok d), interrupted := true } s).schedLog
        = s.schedLog ++ [(max s.nextStartTime now, d)] :=
  ⟨rfl, rfl, rfl, rfl⟩

end AtosCare
